import Mathlib

/-!
Verification development for the HRMS Compliance Service.

The definitions below are a shallow embedding of the ingestion and
ledger-maintenance core of the service:

* the data model (`DataCategory`, `DataInventory`, `DataRetention`) from
  `app/models`, as used by `app/core/consumers.py`;
* the helper functions of `app/core/consumers.py`
  (`get_or_create_category`, `get_or_create_data_inventory`,
  `create_retention_record`, `update_retention_access`,
  `mark_retention_deleted`) as pure state transformers over a `Store`;
* the Redis cache of `app/core/cache.py` as a `CacheState` holding the
  present report keys, the dedup markers and the counters;
* the event handlers of `app/core/consumers.py` as transformers of the
  combined `SysState`;
* the read-time status derivation and the cache/filter skeleton of the
  reporting endpoints in `app/api/routes/compliance.py`, with the role
  filters of `app/core/rbac.py`.

Timestamps are integers (seconds); `timedelta(days := d)` becomes
`d * 86400` and the Python `timedelta.days` projection is `Int.fdiv _ 86400`
(floor division, matching Python's normalization of negative deltas).
-/

/-- `settings.DEFAULT_RETENTION_DAYS` from `app/core/config.py`. -/
def DEFAULT_RETENTION_DAYS : Int := 365

/-- Seconds in one day; `timedelta(days := d)` is `d * secondsPerDay`. -/
def secondsPerDay : Int := 86400

/-- `DataCategory` row (`app/models/data_inventory.py`), as created by
`_get_or_create_category`. -/
structure DataCategory where
  id : Nat
  name : String
  description : String
  sensitivity_level : String
  deriving DecidableEq, Repr

/-- `DataInventory` row, as created by `_get_or_create_data_inventory`. -/
structure DataInventory where
  id : Nat
  data_name : String
  data_type : String
  category_id : Nat
  storage_location : String
  purpose_of_processing : String
  legal_basis : String
  retention_days : Int
  data_subjects : String
  processing_system : String
  encryption_status : String
  access_control_level : String
  deriving DecidableEq, Repr

/-- `DataRetention` row (retention ledger entry), as created and mutated by
the consumer helpers. -/
structure DataRetention where
  data_inventory_id : Nat
  record_id : String
  data_subject_id : Option String
  data_created_at : Int
  data_last_accessed : Int
  retention_expires_at : Int
  retention_status : String
  marked_for_deletion : Bool
  marked_for_deletion_at : Option Int
  deletion_completed_at : Option Int
  deletion_reason : Option String
  updated_at : Int
  deriving DecidableEq, Repr

/-- The relational store: the three tables plus the autoincrement counters
the database assigns ids from. -/
structure Store where
  categories : List DataCategory
  inventories : List DataInventory
  retentions : List DataRetention
  nextCategoryId : Nat
  nextInventoryId : Nat
  deriving DecidableEq, Repr

/-- The Redis cache (`app/core/cache.py`): report-cache keys present,
dedup markers present, and the counters. -/
structure CacheState where
  entries : List String
  dedup : List String
  counters : List (String × Int)
  deriving DecidableEq, Repr

/-- Combined state acted on by an event handler. -/
structure SysState where
  store : Store
  cache : CacheState
  deriving DecidableEq, Repr

/-- Event payload fields read by the handlers (absent keys are `none`). -/
structure Payload where
  user_id : Option String
  id : Option String
  employee_id : Option String
  attendance_id : Option String
  leave_id : Option String
  notification_id : Option String
  recipient_id : Option String
  deletion_reason : Option String
  deriving DecidableEq, Repr

/-- Inbound event envelope as read by the handlers. -/
structure EventData where
  event_id : Option String
  payload : Payload
  deriving DecidableEq, Repr

/-- Python's `a or b` over two optional strings. -/
def orElseStr : Option String → Option String → Option String
  | some a, _ => some a
  | none, b => b

/-- All-absent payload, for building concrete envelopes. -/
def emptyPayload : Payload :=
  { user_id := none, id := none, employee_id := none, attendance_id := none,
    leave_id := none, notification_id := none, recipient_id := none,
    deletion_reason := none }

/-- Prefix test on the underlying character lists, modelling the Redis
`keys prefix*` glob used by the class invalidations. -/
def hasPrefix (pre k : String) : Bool := pre.data.isPrefixOf k.data

/-- `strftime` date key of an instant, a deterministic function of `now`. -/
def dayKey (now : Int) : String := toString (Int.fdiv now secondsPerDay)

/-! ## Cache operations (`app/core/cache.py`) -/

/-- `ComplianceCacheService.is_duplicate_event`. -/
def is_duplicate_event (c : CacheState) (event_id : String) : Bool :=
  c.dedup.contains ("compliance:event_processed:" ++ event_id)

/-- `ComplianceCacheService.mark_event_processed`. -/
def mark_event_processed (c : CacheState) (event_id : String) : CacheState :=
  { c with dedup := ("compliance:event_processed:" ++ event_id) :: c.dedup }

/-- `invalidate_inventory_cache`: delete every key under the
`compliance:inventory:` prefix. -/
def invalidate_inventory_cache (c : CacheState) : CacheState :=
  { c with entries := c.entries.filter (fun k => !(hasPrefix ("compliance:inventory:") k)) }

/-- `invalidate_retention_cache`: delete every key under the
`compliance:retention:` prefix. -/
def invalidate_retention_cache (c : CacheState) : CacheState :=
  { c with entries := c.entries.filter (fun k => !(hasPrefix ("compliance:retention:") k)) }

/-- `invalidate_employee_data_cache`: delete the one per-subject key. -/
def invalidate_employee_data_cache (c : CacheState) (employee_id : String) : CacheState :=
  { c with entries := c.entries.filter (fun k => !(k == "compliance:employee_data:" ++ employee_id)) }

/-- Update the first binding of a counter key, or append it. -/
def bumpCounter : List (String × Int) → String → List (String × Int)
  | [], k => [(k, 1)]
  | (k2, v) :: rest, k =>
      if k2 == k then (k2, v + 1) :: rest else (k2, v) :: bumpCounter rest k

/-- `increment_counter` (with the default amount 1). -/
def increment_counter (c : CacheState) (counter_name : String) : CacheState :=
  { c with counters := bumpCounter c.counters ("compliance:counter:" ++ counter_name) }

/-! ## Store helpers (`app/core/consumers.py`) -/

/-- Registrar lookup key: `(data_name, storage_location)`. -/
def invPred (data_name storage_location : String) (i : DataInventory) : Bool :=
  i.data_name == data_name && i.storage_location == storage_location

/-- Retention ledger lookup key: `(data_inventory_id, record_id)`. -/
def pairPred (inventory_id : Nat) (record_id : String) (r : DataRetention) : Bool :=
  r.data_inventory_id == inventory_id && r.record_id == record_id

/-- The `category_mapping` table of `_get_or_create_category`, with its
`("Other Data", "medium")` default. -/
def category_mapping (data_type : String) : String × String :=
  if data_type == "personal" then ("Personal Data", "high")
  else if data_type == "sensitive" then ("Sensitive Data", "critical")
  else if data_type == "employment" then ("Employment Data", "medium")
  else if data_type == "operational" then ("Operational Data", "low")
  else ("Other Data", "medium")

/-- `_get_or_create_category`. -/
def get_or_create_category (st : Store) (data_type : String) : Store × DataCategory :=
  match st.categories.find? (fun c => c.name == (category_mapping data_type).1) with
  | some c => (st, c)
  | none =>
      let c : DataCategory :=
        { id := st.nextCategoryId, name := (category_mapping data_type).1,
          description := "Category for " ++ data_type ++ " data",
          sensitivity_level := (category_mapping data_type).2 }
      ({ st with categories := st.categories ++ [c],
                 nextCategoryId := st.nextCategoryId + 1 }, c)

/-- `_get_or_create_data_inventory`. -/
def get_or_create_data_inventory (st : Store)
    (data_name data_type storage_location purpose legal_basis : String) :
    Store × DataInventory :=
  match st.inventories.find? (invPred data_name storage_location) with
  | some inv => (st, inv)
  | none =>
      let r := get_or_create_category st data_type
      let inv : DataInventory :=
        { id := r.1.nextInventoryId, data_name := data_name, data_type := data_type,
          category_id := r.2.id, storage_location := storage_location,
          purpose_of_processing := purpose, legal_basis := legal_basis,
          retention_days := DEFAULT_RETENTION_DAYS,
          data_subjects := "employees", processing_system := "HRMS",
          encryption_status := "encrypted", access_control_level := "restricted" }
      ({ r.1 with inventories := r.1.inventories ++ [inv],
                  nextInventoryId := r.1.nextInventoryId + 1 }, inv)

/-- The row inserted by `_create_retention_record` when no entry exists. -/
def newRetention (now : Int) (inventory_id : Nat) (record_id : String)
    (data_subject_id : Option String) (retention_days : Int) : DataRetention :=
  { data_inventory_id := inventory_id, record_id := record_id,
    data_subject_id := data_subject_id, data_created_at := now,
    data_last_accessed := now,
    retention_expires_at := now + retention_days * secondsPerDay,
    retention_status := "active", marked_for_deletion := false,
    marked_for_deletion_at := none, deletion_completed_at := none,
    deletion_reason := none, updated_at := now }

/-- Refresh the access timestamps of the first row matching the pair key,
modelling the mutation of the row returned by `.first()`. -/
def refreshFirst : List DataRetention → Nat → String → Int → List DataRetention
  | [], _, _, _ => []
  | r :: rest, inventory_id, record_id, now =>
      if pairPred inventory_id record_id r then
        { r with data_last_accessed := now, updated_at := now } :: rest
      else r :: refreshFirst rest inventory_id record_id now

/-- `_create_retention_record`: refresh the existing row for the
`(inventory_id, record_id)` pair, or insert a new one with the expiry
computed from the inventory entry's `retention_days`. -/
def create_retention_record (st : Store) (now : Int) (inventory_id : Nat)
    (record_id : String) (data_subject_id : Option String) : Store :=
  match st.retentions.find? (pairPred inventory_id record_id) with
  | some _ =>
      { st with retentions := refreshFirst st.retentions inventory_id record_id now }
  | none =>
      let retention_days :=
        match st.inventories.find? (fun i => i.id == inventory_id) with
        | some inv => inv.retention_days
        | none => DEFAULT_RETENTION_DAYS
      { st with retentions :=
          st.retentions ++ [newRetention now inventory_id record_id data_subject_id retention_days] }

/-- `_update_retention_access`: refresh access time on all rows matching
`record_id`. -/
def update_retention_access (st : Store) (now : Int) (record_id : String) : Store :=
  { st with retentions := st.retentions.map (fun r =>
      if r.record_id == record_id then
        { r with data_last_accessed := now, updated_at := now }
      else r) }

/-- `_mark_retention_deleted`: unconditionally mark all rows matching
`record_id` as deleted. -/
def mark_retention_deleted (st : Store) (now : Int) (record_id deletion_reason : String) : Store :=
  { st with retentions := st.retentions.map (fun r =>
      if r.record_id == record_id then
        { r with retention_status := "deleted", marked_for_deletion := true,
                 marked_for_deletion_at := some now, deletion_completed_at := some now,
                 deletion_reason := some deletion_reason, updated_at := now }
      else r) }

/-- Ledger effect of `handle_employee_terminated_event`: set every row
matching `record_id` to the `termination_retention` status. -/
def terminate_retention (st : Store) (now : Int) (record_id : String) : Store :=
  { st with retentions := st.retentions.map (fun r =>
      if r.record_id == record_id then
        { r with retention_status := "termination_retention", updated_at := now }
      else r) }

/-! ## Event handlers (`app/core/consumers.py`) -/

/-- `handle_user_created_event`: dedup gate, then inventory resolve-or-create,
retention creation, dedup marking and cache invalidation. -/
def handle_user_created_event (now : Int) (ev : EventData) (s : SysState) : SysState :=
  let event_id := orElseStr ev.event_id ev.payload.user_id
  let isDup := match event_id with
    | some eid => is_duplicate_event s.cache ("user-created:" ++ eid)
    | none => false
  if isDup then s
  else
    match orElseStr ev.payload.user_id ev.payload.id with
    | none => s
    | some user_id =>
        let r1 := get_or_create_data_inventory s.store ("User Account Data")
          ("personal") ("user_management_service.users")
          ("User authentication and identification")
          ("Contract - Employment agreement")
        let store2 := create_retention_record r1.1 now r1.2.id user_id (some user_id)
        let c1 := match event_id with
          | some eid => mark_event_processed s.cache ("user-created:" ++ eid)
          | none => s.cache
        let c2 := invalidate_inventory_cache c1
        let c3 := invalidate_employee_data_cache c2 user_id
        let c4 := increment_counter c3 ("data_collected:" ++ dayKey now)
        { store := store2, cache := c4 }

/-- `handle_employee_created_event`. -/
def handle_employee_created_event (now : Int) (ev : EventData) (s : SysState) : SysState :=
  let event_id := orElseStr ev.event_id ev.payload.employee_id
  let isDup := match event_id with
    | some eid => is_duplicate_event s.cache ("employee-created:" ++ eid)
    | none => false
  if isDup then s
  else
    match orElseStr ev.payload.employee_id ev.payload.id with
    | none => s
    | some employee_id =>
        let r1 := get_or_create_data_inventory s.store ("Employee Personal Data")
          ("personal") ("employee_management_service.employees")
          ("Human resource management and employment record keeping")
          ("Contract - Employment agreement")
        let store2 := create_retention_record r1.1 now r1.2.id employee_id
          (orElseStr ev.payload.user_id (some employee_id))
        let c1 := match event_id with
          | some eid => mark_event_processed s.cache ("employee-created:" ++ eid)
          | none => s.cache
        let c2 := invalidate_inventory_cache c1
        let c3 := match ev.payload.user_id with
          | some uid => invalidate_employee_data_cache c2 uid
          | none => c2
        let c4 := increment_counter c3 ("data_collected:" ++ dayKey now)
        { store := store2, cache := c4 }

/-- `handle_user_updated_event`: no dedup gate; refreshes access time and
invalidates only the per-subject key. -/
def handle_user_updated_event (now : Int) (ev : EventData) (s : SysState) : SysState :=
  match orElseStr ev.payload.user_id ev.payload.id with
  | none => s
  | some user_id =>
      let store2 := update_retention_access s.store now user_id
      let c1 := invalidate_employee_data_cache s.cache user_id
      { store := store2, cache := c1 }

/-- `handle_user_deleted_event`: marks retention rows deleted, invalidates
the per-subject key and the retention-report class, bumps the deletion
counter. -/
def handle_user_deleted_event (now : Int) (ev : EventData) (s : SysState) : SysState :=
  match orElseStr ev.payload.user_id ev.payload.id with
  | none => s
  | some user_id =>
      let reason := (ev.payload.deletion_reason).getD ("User account deletion")
      let store2 := mark_retention_deleted s.store now user_id reason
      let c1 := invalidate_employee_data_cache s.cache user_id
      let c2 := invalidate_retention_cache c1
      let c3 := increment_counter c2 ("data_deleted:" ++ dayKey now)
      { store := store2, cache := c3 }

/-- `handle_employee_terminated_event`: sets `termination_retention` on all
rows of the employee, invalidates the retention class and (when a user id is
present) the per-subject key. -/
def handle_employee_terminated_event (now : Int) (ev : EventData) (s : SysState) : SysState :=
  match orElseStr ev.payload.employee_id ev.payload.id with
  | none => s
  | some employee_id =>
      let store2 := terminate_retention s.store now employee_id
      let c1 := invalidate_retention_cache s.cache
      let c2 := match ev.payload.user_id with
        | some uid => invalidate_employee_data_cache c1 uid
        | none => c1
      { store := store2, cache := c2 }

/-- `handle_attendance_event`: inventory resolve-or-create plus retention
creation, with no cache invalidation at all (only a counter bump). -/
def handle_attendance_event (now : Int) (ev : EventData) (s : SysState) : SysState :=
  match ev.payload.employee_id with
  | none => s
  | some employee_id =>
      let r1 := get_or_create_data_inventory s.store ("Attendance Records")
        ("employment") ("attendance_management_service.attendance")
        ("Time tracking and work hour monitoring")
        ("Contract - Employment agreement")
      let store2 := match orElseStr ev.payload.attendance_id ev.payload.id with
        | some attendance_id => create_retention_record r1.1 now r1.2.id attendance_id (some employee_id)
        | none => r1.1
      let c1 := increment_counter s.cache ("attendance_records:" ++ dayKey now)
      { store := store2, cache := c1 }

/-! ## Read-time status derivation (`get_data_retention_report`) -/

/-- The four derived statuses of the retention report. -/
inductive RStatus where
  | deleted
  | expired
  | expiring_soon
  | active
  deriving DecidableEq, Repr

/-- The categorization chain of `get_data_retention_report`:
deleted if `deletion_completed_at` is set; else expired if the stored status
is "expired" or `now` is past the expiry; else expiring_soon if the expiry is
within the threshold (inclusive); else active. -/
def classify (r : DataRetention) (now thresholdDays : Int) : RStatus :=
  if r.deletion_completed_at.isSome then RStatus.deleted
  else if r.retention_status = "expired" ∨ now > r.retention_expires_at then RStatus.expired
  else if r.retention_expires_at ≤ now + thresholdDays * secondsPerDay then RStatus.expiring_soon
  else RStatus.active

/-- `days_until_deletion = (retention_expires_at - now).days`; Python's
`timedelta.days` is the floor of the total duration in days. -/
def days_until_deletion (r : DataRetention) (now : Int) : Int :=
  Int.fdiv (r.retention_expires_at - now) secondsPerDay

/-- `data_age_days = (now - data_created_at).days`. -/
def data_age_days (r : DataRetention) (now : Int) : Int :=
  Int.fdiv (now - r.data_created_at) secondsPerDay

/-! ## Role visibility filters (`app/core/rbac.py`) and report routes -/

/-- `can_view_retention_reports`. -/
def can_view_retention_reports (role : String) : Bool :=
  role == "HR_Admin" || role == "HR_Manager"

/-- `can_view_data_inventory`. -/
def can_view_data_inventory (role : String) : Bool :=
  role == "HR_Admin" || role == "HR_Manager"

/-- One item of the retention report, with the fields the role filter
inspects (`data_subject_role` is never set by this endpoint). -/
structure RetentionItem where
  record_id : String
  data_subject : Option String
  data_subject_role : Option String
  status : String
  marked_for_deletion : Bool
  days_until_deletion : Int
  data_age_days : Int
  deriving DecidableEq, Repr

/-- One item of the inventory listing, with the fields the role filter
inspects. -/
structure InventoryItem where
  data_name : String
  data_type : String
  storage_location : String
  access_control_level : String
  deriving DecidableEq, Repr

/-- `filter_retention_report_for_role`. -/
def filter_retention_report_for_role (items : List RetentionItem)
    (actor_id role : String) : List RetentionItem :=
  if role == "HR_Admin" then items
  else if role == "HR_Manager" then
    items.filter (fun it =>
      !(it.data_subject_role == some "HR_Admin" || it.data_subject_role == some "HR_Manager"))
  else items.filter (fun it => it.data_subject == some actor_id)

/-- `filter_data_inventory_for_role`. -/
def filter_data_inventory_for_role (items : List InventoryItem)
    (role : String) : List InventoryItem :=
  if role == "HR_Admin" then items
  else if role == "HR_Manager" then
    items.filter (fun it =>
      !(it.access_control_level == "confidential") || !(it.data_type == "admin"))
  else items.filter (fun it =>
    it.access_control_level == "public" || it.access_control_level == "internal")

/-- The retention report payload as cached and returned. -/
structure RetentionReport where
  retention_items : List RetentionItem
  threshold_days : Int
  deriving DecidableEq, Repr

/-- The inventory listing payload as cached and returned. -/
structure InventoryReport where
  inventory : List InventoryItem
  count : Nat
  deriving DecidableEq, Repr

/-- Report item built from a ledger row by `get_data_retention_report`. -/
def mkRetentionItem (r : DataRetention) (now : Int) : RetentionItem :=
  { record_id := r.record_id, data_subject := r.data_subject_id,
    data_subject_role := none, status := r.retention_status,
    marked_for_deletion := r.marked_for_deletion,
    days_until_deletion := days_until_deletion r now,
    data_age_days := data_age_days r now }

/-- The computed (pre-cache, unfiltered) retention report: rows with a
resolvable inventory entry, bucketed by the derived status, concatenated in
report order, optionally narrowed by the status query parameter. -/
def computeRetentionReport (st : Store) (statusFilter : Option String)
    (now thresholdDays : Int) : RetentionReport :=
  let rows := st.retentions.filter (fun r =>
    (st.inventories.find? (fun i => i.id == r.data_inventory_id)).isSome)
  let active := (rows.filter (fun r => classify r now thresholdDays == RStatus.active)).map
    (fun r => mkRetentionItem r now)
  let expiring := (rows.filter (fun r => classify r now thresholdDays == RStatus.expiring_soon)).map
    (fun r => mkRetentionItem r now)
  let expired := (rows.filter (fun r => classify r now thresholdDays == RStatus.expired)).map
    (fun r => mkRetentionItem r now)
  let deleted := (rows.filter (fun r => classify r now thresholdDays == RStatus.deleted)).map
    (fun r => mkRetentionItem r now)
  let all_items := match statusFilter with
    | some s =>
        if s == "active" then active
        else if s == "expiring_soon" then expiring
        else if s == "expired" then expired
        else if s == "deleted" then deleted
        else active ++ expiring ++ expired ++ deleted
    | none => active ++ expiring ++ expired ++ deleted
  { retention_items := all_items, threshold_days := thresholdDays }

/-- The computed (pre-cache, unfiltered) inventory listing. -/
def computeInventoryReport (st : Store) : InventoryReport :=
  let items := st.inventories.map (fun i =>
    { data_name := i.data_name, data_type := i.data_type,
      storage_location := i.storage_location,
      access_control_level := i.access_control_level })
  { inventory := items, count := items.length }

/-- Cache/filter skeleton of `get_data_retention_report`: RBAC check, cache
lookup; on a hit the cached payload is filtered per viewer; on a miss the
report is computed, stored unfiltered, and the response filtered per viewer.
Returns `(response, resulting cached payload)`; `.error ()` is the 403. -/
def get_data_retention_report_route (st : Store) (cached : Option RetentionReport)
    (actor_id role : String) (statusFilter : Option String) (now thresholdDays : Int) :
    Except Unit (RetentionReport × Option RetentionReport) :=
  if !(can_view_retention_reports role) then Except.error ()
  else
    match cached with
    | some c =>
        Except.ok ({ c with retention_items :=
          filter_retention_report_for_role c.retention_items actor_id role }, some c)
    | none =>
        let result := computeRetentionReport st statusFilter now thresholdDays
        Except.ok ({ result with retention_items :=
          filter_retention_report_for_role result.retention_items actor_id role }, some result)

/-- Cache/filter skeleton of `get_data_inventory`, same shape. -/
def get_data_inventory_route (st : Store) (cached : Option InventoryReport)
    (role : String) : Except Unit (InventoryReport × Option InventoryReport) :=
  if !(can_view_data_inventory role) then Except.error ()
  else
    match cached with
    | some c =>
        Except.ok ({ c with inventory :=
          filter_data_inventory_for_role c.inventory role }, some c)
    | none =>
        let result := computeInventoryReport st
        Except.ok ({ result with inventory :=
          filter_data_inventory_for_role result.inventory role }, some result)

/-- The payload a report request leaves in the cache: the previously cached
payload on a hit, the freshly computed unfiltered report on a miss. -/
def retentionReportBase (st : Store) (cached : Option RetentionReport)
    (statusFilter : Option String) (now thresholdDays : Int) : RetentionReport :=
  match cached with
  | some c => c
  | none => computeRetentionReport st statusFilter now thresholdDays

/-- Same, for the inventory listing. -/
def inventoryReportBase (st : Store) (cached : Option InventoryReport) : InventoryReport :=
  match cached with
  | some c => c
  | none => computeInventoryReport st

/-! ## Sequences of core ledger operations -/

/-- The operations of the core that touch (or could touch) the retention
ledger after an entry exists: the employee-terminated handler's status write,
the access refresh, deletion marking, retention upsert, and the registrar. -/
inductive CoreOp where
  | terminate (now : Int) (record_id : String)
  | refreshAccess (now : Int) (record_id : String)
  | markDeleted (now : Int) (record_id deletion_reason : String)
  | createRetention (now : Int) (inventory_id : Nat) (record_id : String)
      (data_subject_id : Option String)
  | registerInventory (data_name data_type storage_location purpose legal_basis : String)
  deriving Repr

/-- Apply one core operation to the store. -/
def applyOp (st : Store) : CoreOp → Store
  | CoreOp.terminate now rid => terminate_retention st now rid
  | CoreOp.refreshAccess now rid => update_retention_access st now rid
  | CoreOp.markDeleted now rid reason => mark_retention_deleted st now rid reason
  | CoreOp.createRetention now inv rid subj => create_retention_record st now inv rid subj
  | CoreOp.registerInventory dn dt sl p lb =>
      (get_or_create_data_inventory st dn dt sl p lb).1

/-- Apply a sequence of core operations left to right. -/
def applyOps (st : Store) (ops : List CoreOp) : Store :=
  ops.foldl applyOp st

/-- Derived status of the ledger entry at position `i`, at evaluation
instant `now` with the given threshold. -/
def classifyAt (st : Store) (i : Nat) (now thresholdDays : Int) : Option RStatus :=
  (st.retentions[i]?).map (fun r => classify r now thresholdDays)

/-! ## Counting helpers -/

/-- Number of ledger entries for an `(inventory_entry_id, record_id)` pair. -/
def pairCount (st : Store) (inventory_id : Nat) (record_id : String) : Nat :=
  st.retentions.countP (pairPred inventory_id record_id)

/-- Number of inventory entries for a `(data_name, storage_location)` pair. -/
def invCount (st : Store) (data_name storage_location : String) : Nat :=
  st.inventories.countP (invPred data_name storage_location)

/-- Number of categories with a given name. -/
def catCount (st : Store) (name : String) : Nat :=
  st.categories.countP (fun c => c.name == name)

/-! ## Claim C5 -/

/-- C5: read-time status derivation. For every ledger entry, instant and
threshold, the report classifies the entry as deleted iff
`deletion_completed_at` is set; else expired iff the stored status is
"expired" or `now` is past the expiry; else expiring_soon iff the expiry is
at most `now + threshold` (boundary inclusive); else active — the four-way
partition is exhaustive and mutually exclusive. -/
theorem classify_characterization (r : DataRetention) (now th : Int) :
    (classify r now th = RStatus.deleted ↔ r.deletion_completed_at.isSome = true)
  ∧ (classify r now th = RStatus.expired ↔
      (r.deletion_completed_at.isSome = false ∧
        (r.retention_status = "expired" ∨ now > r.retention_expires_at)))
  ∧ (classify r now th = RStatus.expiring_soon ↔
      (r.deletion_completed_at.isSome = false ∧
        ¬(r.retention_status = "expired" ∨ now > r.retention_expires_at) ∧
        r.retention_expires_at ≤ now + th * secondsPerDay))
  ∧ (classify r now th = RStatus.active ↔
      (r.deletion_completed_at.isSome = false ∧
        ¬(r.retention_status = "expired" ∨ now > r.retention_expires_at) ∧
        ¬(r.retention_expires_at ≤ now + th * secondsPerDay)))
  ∧ (r.deletion_completed_at.isSome = false →
      ¬(r.retention_status = "expired" ∨ now > r.retention_expires_at) →
      r.retention_expires_at = now + th * secondsPerDay →
      classify r now th = RStatus.expiring_soon) := by
  unfold classify
  split_ifs with h1 h2 h3 <;> simp_all
  intro he
  rw [he] at h3
  exact lt_irrefl _ h3

/-- Concrete instance of C5, at the inclusive threshold boundary: an entry
expiring exactly at `now + 30` days classifies as expiring_soon. -/
def c5entry : DataRetention :=
  { data_inventory_id := 1, record_id := "r1", data_subject_id := some "u1",
    data_created_at := 0, data_last_accessed := 0,
    retention_expires_at := 30 * 86400,
    retention_status := "active", marked_for_deletion := false,
    marked_for_deletion_at := none, deletion_completed_at := none,
    deletion_reason := none, updated_at := 0 }

theorem classify_characterization_witness :
    (classify c5entry 0 30 = RStatus.deleted ↔ c5entry.deletion_completed_at.isSome = true)
  ∧ (classify c5entry 0 30 = RStatus.expired ↔
      (c5entry.deletion_completed_at.isSome = false ∧
        (c5entry.retention_status = "expired" ∨ 0 > c5entry.retention_expires_at)))
  ∧ (classify c5entry 0 30 = RStatus.expiring_soon ↔
      (c5entry.deletion_completed_at.isSome = false ∧
        ¬(c5entry.retention_status = "expired" ∨ 0 > c5entry.retention_expires_at) ∧
        c5entry.retention_expires_at ≤ 0 + 30 * secondsPerDay))
  ∧ (classify c5entry 0 30 = RStatus.active ↔
      (c5entry.deletion_completed_at.isSome = false ∧
        ¬(c5entry.retention_status = "expired" ∨ 0 > c5entry.retention_expires_at) ∧
        ¬(c5entry.retention_expires_at ≤ 0 + 30 * secondsPerDay)))
  ∧ (c5entry.deletion_completed_at.isSome = false →
      ¬(c5entry.retention_status = "expired" ∨ 0 > c5entry.retention_expires_at) →
      c5entry.retention_expires_at = 0 + 30 * secondsPerDay →
      classify c5entry 0 30 = RStatus.expiring_soon) :=
  classify_characterization c5entry 0 30

/-! ## Claim C10 -/

/-- C10: category resolution is total with a fixed fallback. For any
`data_type` outside the four known tags, the resolved category is named
"Other Data"; an existing row of that name is returned with the store
unchanged, and on first use exactly one such row is created, with
sensitivity_level "medium". -/
theorem category_fallback (st : Store) (dt : String)
    (h1 : dt ≠ "personal") (h2 : dt ≠ "sensitive")
    (h3 : dt ≠ "employment") (h4 : dt ≠ "operational") :
    ((get_or_create_category st dt).2.name = "Other Data")
  ∧ (∀ c, st.categories.find? (fun c2 => c2.name == "Other Data") = some c →
      get_or_create_category st dt = (st, c))
  ∧ (st.categories.find? (fun c2 => c2.name == "Other Data") = none →
      (get_or_create_category st dt).2.sensitivity_level = "medium"
      ∧ (get_or_create_category st dt).1.categories
          = st.categories ++ [(get_or_create_category st dt).2]
      ∧ catCount (get_or_create_category st dt).1 ("Other Data") = 1) := by
  have hm : category_mapping dt = ("Other Data", "medium") := by
    simp [category_mapping, h1, h2, h3, h4]
  cases hfind : st.categories.find? (fun c2 => c2.name == "Other Data") with
  | some c =>
      have hname : c.name = "Other Data" := by
        have := List.find?_some hfind
        simpa using this
      refine ⟨?_, ?_, ?_⟩
      · simp [get_or_create_category, hm, hfind, hname]
      · intro c2 hc2
        injection hc2 with h
        subst h
        simp [get_or_create_category, hm, hfind]
      · intro hnone
        simp at hnone
  | none =>
      have hzero : st.categories.countP (fun c => c.name == "Other Data") = 0 := by
        rw [List.countP_eq_zero]
        intro a ha
        have := List.find?_eq_none.mp hfind a ha
        simpa using this
      refine ⟨?_, ?_, ?_⟩
      · simp [get_or_create_category, hm, hfind]
      · intro c2 hc2
        simp at hc2
      · intro _
        refine ⟨?_, ?_, ?_⟩
        · simp [get_or_create_category, hm, hfind]
        · simp [get_or_create_category, hm, hfind]
        · simp [get_or_create_category, catCount, hm, hfind, List.countP_append, hzero]

/-- The empty store, for concrete instantiations. -/
def emptyStore : Store :=
  { categories := [], inventories := [], retentions := [],
    nextCategoryId := 1, nextInventoryId := 1 }

theorem category_fallback_witness :
    ("financial" ≠ "personal")
  ∧ ((get_or_create_category emptyStore ("financial")).2.name = "Other Data") := by
  constructor
  · decide
  · exact (category_fallback emptyStore ("financial")
      (by decide) (by decide) (by decide) (by decide)).1

/-! ## Claim C8 -/

/-- C8: expiry arithmetic. A newly created retention entry has
`retention_expires_at = data_created_at + retention_days` (days taken from
the inventory entry), and the report's `days_until_deletion` is the floor
day count of `retention_expires_at - now`, unclamped: with 365-day
retention, at `T + 370` days it is `-5`, not `0`. -/
theorem expiry_arithmetic (st : Store) (T d : Int) (invId : Nat) (rid : String)
    (subj : Option String) (inv : DataInventory)
    (hfind : st.retentions.find? (pairPred invId rid) = none)
    (hinv : st.inventories.find? (fun i => i.id == invId) = some inv)
    (hd : inv.retention_days = d) :
    ((create_retention_record st T invId rid subj).retentions
        = st.retentions ++ [newRetention T invId rid subj d])
  ∧ ((newRetention T invId rid subj d).retention_expires_at
        = (newRetention T invId rid subj d).data_created_at + d * secondsPerDay)
  ∧ (d = 365 →
      days_until_deletion (newRetention T invId rid subj d) (T + 370 * secondsPerDay) = -5) := by
  refine ⟨?_, ?_, ?_⟩
  · simp [create_retention_record, hfind, hinv, hd]
  · simp [newRetention]
  · intro h365
    subst h365
    show Int.fdiv ((newRetention T invId rid subj 365).retention_expires_at
      - (T + 370 * secondsPerDay)) secondsPerDay = -5
    have he : (newRetention T invId rid subj 365).retention_expires_at
        - (T + 370 * secondsPerDay) = -432000 := by
      show T + 365 * secondsPerDay - (T + 370 * secondsPerDay) = -432000
      unfold secondsPerDay
      ring
    rw [he]
    decide

/-- Concrete inventory row used by witnesses. -/
def winv : DataInventory :=
  { id := 1, data_name := "User Account Data", data_type := "personal",
    category_id := 1, storage_location := "user_management_service.users",
    purpose_of_processing := "User authentication and identification",
    legal_basis := "Contract - Employment agreement",
    retention_days := 365, data_subjects := "employees",
    processing_system := "HRMS", encryption_status := "encrypted",
    access_control_level := "restricted" }

/-- Store holding only `winv`, for witnesses. -/
def winvStore : Store :=
  { categories := [], inventories := [winv], retentions := [],
    nextCategoryId := 1, nextInventoryId := 2 }

theorem expiry_arithmetic_witness :
    ((create_retention_record winvStore 0 1 ("u1") (some "u1")).retentions
        = winvStore.retentions ++ [newRetention 0 1 ("u1") (some "u1") 365])
  ∧ ((newRetention 0 1 ("u1") (some "u1") 365).retention_expires_at
        = (newRetention 0 1 ("u1") (some "u1") 365).data_created_at + 365 * secondsPerDay)
  ∧ ((365 : Int) = 365 →
      days_until_deletion (newRetention 0 1 ("u1") (some "u1") 365) (0 + 370 * secondsPerDay) = -5) :=
  expiry_arithmetic winvStore 0 365 1 ("u1") (some "u1") winv (by decide) (by decide) (by decide)

/-! ## Claim C2 -/

/-- Active ledger row used by the C2 counterexample. -/
def c2entry : DataRetention :=
  { data_inventory_id := 1, record_id := "r1", data_subject_id := some "u1",
    data_created_at := 0, data_last_accessed := 0, retention_expires_at := 100,
    retention_status := "active", marked_for_deletion := false,
    marked_for_deletion_at := none, deletion_completed_at := none,
    deletion_reason := none, updated_at := 0 }

/-- Store holding only `c2entry`. -/
def c2store : Store :=
  { categories := [], inventories := [], retentions := [c2entry],
    nextCategoryId := 1, nextInventoryId := 1 }

/-- C2 counterexample: `mark_retention_deleted` does not short-circuit — a
second call at a later instant changes the store again (it overwrites
`marked_for_deletion_at` and `deletion_completed_at` with the new time), so
the subsequent call is not a no-op. -/
theorem mark_retention_deleted_not_noop :
    mark_retention_deleted (mark_retention_deleted c2store 10 ("r1") ("employee termination"))
        20 ("r1") ("employee termination")
      ≠ mark_retention_deleted c2store 10 ("r1") ("employee termination") := by
  decide

/-- C2 amended: a first `mark_deleted` sets status "deleted",
`marked_for_deletion`, the deletion timestamps and the reason on every row
matching the record id; a subsequent call is not a no-op but a re-apply —
it overwrites both deletion timestamps with its own `now` (so a repeat at
the same instant with the same reason leaves the store unchanged, and in
general the second call fully absorbs the first). -/
theorem mark_retention_deleted_overwrite (st : Store) (now1 now2 : Int) (rid reason : String) :
    (mark_retention_deleted (mark_retention_deleted st now1 rid reason) now2 rid reason
        = mark_retention_deleted st now2 rid reason)
  ∧ (∀ r ∈ (mark_retention_deleted st now1 rid reason).retentions,
       r.record_id = rid →
         r.retention_status = "deleted" ∧ r.marked_for_deletion = true ∧
         r.marked_for_deletion_at = some now1 ∧ r.deletion_completed_at = some now1 ∧
         r.deletion_reason = some reason) := by
  constructor
  · unfold mark_retention_deleted
    simp only [List.map_map]
    congr 1
    apply List.map_congr_left
    intro r hmem
    by_cases h : r.record_id == rid
    · simp [Function.comp, h]
    · simp [Function.comp, h]
  · intro r hr hrid
    unfold mark_retention_deleted at hr
    simp only [List.mem_map] at hr
    obtain ⟨r0, hr0, hmap⟩ := hr
    by_cases h : r0.record_id == rid
    · rw [if_pos h] at hmap
      subst hmap
      simp
    · rw [if_neg h] at hmap
      subst hmap
      exact absurd (beq_iff_eq.mpr hrid) h

/-! ## Claim C6 -/

/-- One `_create_retention_record` invocation (the arguments a creation
event supplies). -/
structure CreateCall where
  now : Int
  inventory_id : Nat
  record_id : String
  data_subject_id : Option String
  deriving Repr

/-- Apply a sequence of retention-creation events. -/
def applyCreates (st : Store) (cs : List CreateCall) : Store :=
  cs.foldl (fun st2 c =>
    create_retention_record st2 c.now c.inventory_id c.record_id c.data_subject_id) st

theorem refreshFirst_countP (p : DataRetention → Bool)
    (hp : ∀ (r : DataRetention) (now : Int),
      p { r with data_last_accessed := now, updated_at := now } = p r) :
    ∀ (l : List DataRetention) (inv : Nat) (rid : String) (now : Int),
      (refreshFirst l inv rid now).countP p = l.countP p := by
  intro l
  induction l with
  | nil => intro inv rid now; rfl
  | cons r rest ih =>
      intro inv rid now
      unfold refreshFirst
      by_cases h : pairPred inv rid r
      · simp [h, List.countP_cons, hp]
      · simp [h, List.countP_cons, ih]

theorem refreshFirst_length :
    ∀ (l : List DataRetention) (inv : Nat) (rid : String) (now : Int),
      (refreshFirst l inv rid now).length = l.length := by
  intro l
  induction l with
  | nil => intro inv rid now; rfl
  | cons r rest ih =>
      intro inv rid now
      unfold refreshFirst
      by_cases h : pairPred inv rid r
      · simp [h]
      · simp [h, ih]

theorem refreshFirst_find? :
    ∀ (l : List DataRetention) (inv : Nat) (rid : String) (now : Int) (r : DataRetention),
      l.find? (pairPred inv rid) = some r →
      (refreshFirst l inv rid now).find? (pairPred inv rid)
        = some { r with data_last_accessed := now, updated_at := now } := by
  intro l
  induction l with
  | nil => intro inv rid now r h; cases h
  | cons a rest ih =>
      intro inv rid now r h
      by_cases ha : pairPred inv rid a
      · rw [List.find?_cons_of_pos _ ha] at h
        injection h with h2
        subst h2
        unfold refreshFirst
        rw [if_pos ha]
        have ha2 : pairPred inv rid { a with data_last_accessed := now, updated_at := now } := ha
        exact List.find?_cons_of_pos _ ha2
      · rw [List.find?_cons_of_neg _ ha] at h
        unfold refreshFirst
        rw [if_neg ha]
        rw [List.find?_cons_of_neg _ ha]
        exact ih inv rid now r h

theorem pairCount_create_le (st : Store) (cnow : Int) (cinv : Nat) (crid : String)
    (csubj : Option String) (inv : Nat) (rid : String)
    (h : pairCount st inv rid ≤ 1) :
    pairCount (create_retention_record st cnow cinv crid csubj) inv rid ≤ 1 := by
  unfold create_retention_record
  cases hf : st.retentions.find? (pairPred cinv crid) with
  | some r0 =>
      unfold pairCount at h ⊢
      simpa [refreshFirst_countP (pairPred inv rid) (fun r now => rfl)] using h
  | none =>
      unfold pairCount at h ⊢
      simp only [List.countP_append]
      by_cases hc : cinv = inv ∧ crid = rid
      · obtain ⟨hc1, hc2⟩ := hc
        subst hc1
        subst hc2
        have hzero : st.retentions.countP (pairPred cinv crid) = 0 := by
          rw [List.countP_eq_zero]
          intro a ha
          exact List.find?_eq_none.mp hf a ha
        rw [hzero, Nat.zero_add]
        exact le_trans (List.countP_le_length _) (by simp)
      · have hfalse : pairPred inv rid (newRetention cnow cinv crid csubj
            (match st.inventories.find? (fun i => i.id == cinv) with
             | some inv2 => inv2.retention_days
             | none => DEFAULT_RETENTION_DAYS)) = false := by
          simp only [pairPred, newRetention]
          rw [Bool.and_eq_false_iff]
          by_cases h1 : cinv = inv
          · right
            subst h1
            have h2 : crid ≠ rid := fun hr => hc ⟨rfl, hr⟩
            simpa using h2
          · left
            simpa using h1
        simp [hfalse]
        omega

/-- C6: retention single-entry invariant. If at most one ledger entry exists
for an `(inventory_entry_id, record_id)` pair, then after any sequence of
creation events at most one still exists; the first creation event for the
pair produces exactly one entry, and any later creation event leaves the
row count unchanged and refreshes `data_last_accessed` of the existing row
to the event's `now`. -/
theorem retention_single_entry (inv : Nat) (rid : String) (st : Store)
    (h : pairCount st inv rid ≤ 1) :
    (∀ cs : List CreateCall, pairCount (applyCreates st cs) inv rid ≤ 1)
  ∧ (pairCount st inv rid = 0 → ∀ (now : Int) (subj : Option String),
      pairCount (create_retention_record st now inv rid subj) inv rid = 1)
  ∧ (∀ r, st.retentions.find? (pairPred inv rid) = some r →
      ∀ (now : Int) (subj : Option String),
        (create_retention_record st now inv rid subj).retentions.length
            = st.retentions.length
        ∧ (create_retention_record st now inv rid subj).retentions.find? (pairPred inv rid)
            = some { r with data_last_accessed := now, updated_at := now }) := by
  refine ⟨?_, ?_, ?_⟩
  · intro cs
    induction cs generalizing st with
    | nil => exact h
    | cons c rest ih =>
        exact ih _ (pairCount_create_le st c.now c.inventory_id c.record_id
          c.data_subject_id inv rid h)
  · intro h0 now subj
    have hf : st.retentions.find? (pairPred inv rid) = none := by
      rw [List.find?_eq_none]
      intro a ha
      exact (List.countP_eq_zero.mp h0) a ha
    unfold create_retention_record
    rw [hf]
    unfold pairCount at h0 ⊢
    simp only [List.countP_append, h0]
    simp [pairPred, newRetention]
  · intro r hr now subj
    unfold create_retention_record
    rw [hr]
    constructor
    · exact refreshFirst_length st.retentions inv rid now
    · exact refreshFirst_find? st.retentions inv rid now r hr

/-- Store with one retention row for pair `(1, "u1")`, for witnesses. -/
def wretStore : Store :=
  { categories := [], inventories := [winv],
    retentions := [newRetention 0 1 ("u1") (some "u1") 365],
    nextCategoryId := 1, nextInventoryId := 2 }

theorem retention_single_entry_witness :
    pairCount (create_retention_record wretStore 50 1 ("u1") (some "u1")) 1 ("u1") ≤ 1 :=
  (retention_single_entry 1 ("u1") wretStore (by decide)).1
    [⟨50, 1, "u1", some "u1"⟩]

/-! ## Claim C7 -/

/-- A classification descriptor, as passed to the registrar. -/
structure Descriptor where
  data_name : String
  data_type : String
  storage_location : String
  purpose : String
  legal_basis : String
  deriving Repr

/-- Apply a sequence of registrar resolutions. -/
def applyRegistrar (st : Store) (ds : List Descriptor) : Store :=
  ds.foldl (fun st2 d =>
    (get_or_create_data_inventory st2 d.data_name d.data_type d.storage_location
      d.purpose d.legal_basis).1) st

theorem get_or_create_category_inventories (st : Store) (dt : String) :
    (get_or_create_category st dt).1.inventories = st.inventories := by
  unfold get_or_create_category
  cases st.categories.find? (fun c => c.name == (category_mapping dt).1) <;> rfl

theorem get_or_create_category_nextInventoryId (st : Store) (dt : String) :
    (get_or_create_category st dt).1.nextInventoryId = st.nextInventoryId := by
  unfold get_or_create_category
  cases st.categories.find? (fun c => c.name == (category_mapping dt).1) <;> rfl

theorem get_or_create_category_retentions (st : Store) (dt : String) :
    (get_or_create_category st dt).1.retentions = st.retentions := by
  unfold get_or_create_category
  cases st.categories.find? (fun c => c.name == (category_mapping dt).1) <;> rfl

theorem invCount_registrar_le (st : Store) (dn dt sl pu lb : String)
    (name loc : String) (h : invCount st name loc ≤ 1) :
    invCount (get_or_create_data_inventory st dn dt sl pu lb).1 name loc ≤ 1 := by
  unfold get_or_create_data_inventory
  cases hf : st.inventories.find? (invPred dn sl) with
  | some inv => exact h
  | none =>
      unfold invCount at h ⊢
      simp only [get_or_create_category_inventories, List.countP_append]
      by_cases hc : dn = name ∧ sl = loc
      · obtain ⟨hc1, hc2⟩ := hc
        subst hc1
        subst hc2
        have hzero : st.inventories.countP (invPred dn sl) = 0 := by
          rw [List.countP_eq_zero]
          intro a ha
          exact List.find?_eq_none.mp hf a ha
        rw [hzero, Nat.zero_add]
        exact le_trans (List.countP_le_length _) (by simp)
      · have hfalse : ∀ i : Nat, invPred name loc
            { id := i, data_name := dn, data_type := dt,
              category_id := (get_or_create_category st dt).2.id,
              storage_location := sl, purpose_of_processing := pu, legal_basis := lb,
              retention_days := DEFAULT_RETENTION_DAYS,
              data_subjects := "employees", processing_system := "HRMS",
              encryption_status := "encrypted", access_control_level := "restricted" }
            = false := by
          intro i
          simp only [invPred]
          rw [Bool.and_eq_false_iff]
          by_cases h1 : dn = name
          · right
            have h2 : sl ≠ loc := fun hr => hc ⟨h1, hr⟩
            simpa using h2
          · left
            simpa using h1
        simp [hfalse]
        omega

/-- C7: inventory registrar resolve-or-create. An existing entry for
`(data_name, storage_location)` is returned with the store unchanged;
otherwise exactly one new entry is appended, with
`retention_days = DEFAULT_RETENTION_DAYS = 365`,
`encryption_status = "encrypted"` and `access_control_level = "restricted"`;
and along any sequence of registrar resolutions at most one entry for the
pair ever exists. -/
theorem inventory_registrar (st : Store) (name dt loc pu lb : String) :
    (∀ inv, st.inventories.find? (invPred name loc) = some inv →
        get_or_create_data_inventory st name dt loc pu lb = (st, inv))
  ∧ (st.inventories.find? (invPred name loc) = none →
        ((get_or_create_data_inventory st name dt loc pu lb).1.inventories
            = st.inventories ++ [(get_or_create_data_inventory st name dt loc pu lb).2])
        ∧ (get_or_create_data_inventory st name dt loc pu lb).2.retention_days
            = DEFAULT_RETENTION_DAYS
        ∧ DEFAULT_RETENTION_DAYS = 365
        ∧ (get_or_create_data_inventory st name dt loc pu lb).2.encryption_status
            = "encrypted"
        ∧ (get_or_create_data_inventory st name dt loc pu lb).2.access_control_level
            = "restricted"
        ∧ invCount (get_or_create_data_inventory st name dt loc pu lb).1 name loc = 1)
  ∧ (∀ ds : List Descriptor, invCount st name loc ≤ 1 →
        invCount (applyRegistrar st ds) name loc ≤ 1) := by
  refine ⟨?_, ?_, ?_⟩
  · intro inv hf
    unfold get_or_create_data_inventory
    rw [hf]
  · intro hf
    have hzero : st.inventories.countP (invPred name loc) = 0 := by
      rw [List.countP_eq_zero]
      intro a ha
      exact List.find?_eq_none.mp hf a ha
    refine ⟨?_, ?_, ?_, ?_, ?_, ?_⟩
    · simp [get_or_create_data_inventory, hf, get_or_create_category_inventories]
    · simp [get_or_create_data_inventory, hf]
    · rfl
    · simp [get_or_create_data_inventory, hf]
    · simp [get_or_create_data_inventory, hf]
    · unfold invCount
      simp only [get_or_create_data_inventory, hf, get_or_create_category_inventories,
        List.countP_append]
      rw [hzero, Nat.zero_add]
      simp [invPred]
  · intro ds
    induction ds generalizing st with
    | nil => exact fun h => h
    | cons d rest ih =>
        intro h
        exact ih _ (invCount_registrar_le st d.data_name d.data_type
          d.storage_location d.purpose d.legal_basis name loc h)

theorem inventory_registrar_witness :
    invCount (applyRegistrar emptyStore
      [⟨"User Account Data", "personal", "user_management_service.users", "p", "l"⟩,
       ⟨"User Account Data", "personal", "user_management_service.users", "p", "l"⟩])
      ("User Account Data") ("user_management_service.users") ≤ 1 :=
  (inventory_registrar emptyStore ("User Account Data") ("personal")
      ("user_management_service.users") ("p") ("l")).2.2
    [⟨"User Account Data", "personal", "user_management_service.users", "p", "l"⟩,
     ⟨"User Account Data", "personal", "user_management_service.users", "p", "l"⟩]
    (by decide)

/-! ## Claim C3 -/

theorem refreshFirst_getElem? :
    ∀ (l : List DataRetention) (inv : Nat) (rid : String) (now : Int) (i : Nat)
      (r : DataRetention), l[i]? = some r →
      ∃ r2, (refreshFirst l inv rid now)[i]? = some r2
        ∧ r2.deletion_completed_at = r.deletion_completed_at := by
  intro l
  induction l with
  | nil => intro inv rid now i r h; cases h
  | cons a rest ih =>
      intro inv rid now i r h
      unfold refreshFirst
      by_cases ha : pairPred inv rid a
      · rw [if_pos ha]
        cases i with
        | zero =>
            rw [List.getElem?_cons_zero] at h
            injection h with h2
            subst h2
            exact ⟨_, List.getElem?_cons_zero, rfl⟩
        | succ j =>
            rw [List.getElem?_cons_succ] at h
            exact ⟨r, by rw [List.getElem?_cons_succ]; exact h, rfl⟩
      · rw [if_neg ha]
        cases i with
        | zero =>
            rw [List.getElem?_cons_zero] at h
            injection h with h2
            subst h2
            exact ⟨a, List.getElem?_cons_zero, rfl⟩
        | succ j =>
            rw [List.getElem?_cons_succ] at h
            obtain ⟨r2, hr2, hd⟩ := ih inv rid now j r h
            exact ⟨r2, by rw [List.getElem?_cons_succ]; exact hr2, hd⟩

theorem get_or_create_data_inventory_retentions (st : Store)
    (dn dt sl pu lb : String) :
    (get_or_create_data_inventory st dn dt sl pu lb).1.retentions = st.retentions := by
  unfold get_or_create_data_inventory
  cases hf : st.inventories.find? (invPred dn sl) with
  | some _ => rfl
  | none => simp [get_or_create_category_retentions]

theorem applyOp_deletion_preserved (op : CoreOp) (st : Store) (i : Nat)
    (r : DataRetention) (h : st.retentions[i]? = some r) :
    ∃ r2, (applyOp st op).retentions[i]? = some r2
      ∧ (r.deletion_completed_at.isSome = true → r2.deletion_completed_at.isSome = true) := by
  cases op with
  | terminate now rid =>
      have h2 : (terminate_retention st now rid).retentions[i]?
          = some (if r.record_id == rid then
              { r with retention_status := "termination_retention", updated_at := now }
            else r) := by
        show (st.retentions.map _)[i]? = _
        rw [List.getElem?_map, h]
        rfl
      refine ⟨_, h2, ?_⟩
      by_cases hb : r.record_id == rid <;> simp [hb]
  | refreshAccess now rid =>
      have h2 : (update_retention_access st now rid).retentions[i]?
          = some (if r.record_id == rid then
              { r with data_last_accessed := now, updated_at := now }
            else r) := by
        show (st.retentions.map _)[i]? = _
        rw [List.getElem?_map, h]
        rfl
      refine ⟨_, h2, ?_⟩
      by_cases hb : r.record_id == rid <;> simp [hb]
  | markDeleted now rid reason =>
      have h2 : (mark_retention_deleted st now rid reason).retentions[i]?
          = some (if r.record_id == rid then
              { r with retention_status := "deleted", marked_for_deletion := true,
                       marked_for_deletion_at := some now, deletion_completed_at := some now,
                       deletion_reason := some reason, updated_at := now }
            else r) := by
        show (st.retentions.map _)[i]? = _
        rw [List.getElem?_map, h]
        rfl
      refine ⟨_, h2, ?_⟩
      by_cases hb : r.record_id == rid <;> simp [hb]
  | createRetention now invId rid subj =>
      show ∃ r2, (create_retention_record st now invId rid subj).retentions[i]? = some r2 ∧ _
      unfold create_retention_record
      cases hf : st.retentions.find? (pairPred invId rid) with
      | some r0 =>
          obtain ⟨r2, h2, hd⟩ := refreshFirst_getElem? st.retentions invId rid now i r h
          exact ⟨r2, h2, fun hs => by rw [hd]; exact hs⟩
      | none =>
          have hlt : i < st.retentions.length := (List.getElem?_eq_some.mp h).1
          refine ⟨r, ?_, fun hs => hs⟩
          show (st.retentions ++ _)[i]? = some r
          rw [List.getElem?_append_left hlt]
          exact h
  | registerInventory dn dt sl pu lb =>
      refine ⟨r, ?_, fun hs => hs⟩
      show (get_or_create_data_inventory st dn dt sl pu lb).1.retentions[i]? = some r
      rw [get_or_create_data_inventory_retentions]
      exact h

theorem applyOps_deletion_preserved (ops : List CoreOp) :
    ∀ (st : Store) (i : Nat) (r : DataRetention),
      st.retentions[i]? = some r → r.deletion_completed_at.isSome = true →
      ∃ r2, (applyOps st ops).retentions[i]? = some r2
        ∧ r2.deletion_completed_at.isSome = true := by
  induction ops with
  | nil => exact fun st i r h hd => ⟨r, h, hd⟩
  | cons op rest ih =>
      intro st i r h hd
      obtain ⟨r2, h2, hd2⟩ := applyOp_deletion_preserved op st i r h
      exact ih (applyOp st op) i r2 h2 (hd2 hd)

/-- C3: deleted status is sticky. If a ledger entry has
`deletion_completed_at` set, then after any sequence of core operations
(termination status writes, access refreshes, deletion markings, retention
upserts, registrar resolutions) the entry at the same position still has it
set, so at every later evaluation instant and threshold the report
classifies it as deleted. -/
theorem deleted_status_sticky (st : Store) (i : Nat) (r : DataRetention)
    (hr : st.retentions[i]? = some r)
    (hdel : r.deletion_completed_at.isSome = true)
    (ops : List CoreOp) (now th : Int) :
    classifyAt (applyOps st ops) i now th = some RStatus.deleted := by
  obtain ⟨r2, h2, hd2⟩ := applyOps_deletion_preserved ops st i r hr hdel
  unfold classifyAt
  rw [h2]
  simp [classify, hd2]

/-- Ledger row already marked deleted, for the C3 witness. -/
def delEntry : DataRetention :=
  { data_inventory_id := 1, record_id := "e1", data_subject_id := some "u1",
    data_created_at := 0, data_last_accessed := 0, retention_expires_at := 100,
    retention_status := "deleted", marked_for_deletion := true,
    marked_for_deletion_at := some 5, deletion_completed_at := some 5,
    deletion_reason := some "employee termination", updated_at := 5 }

/-- Store holding only `delEntry`. -/
def delStore : Store :=
  { categories := [], inventories := [], retentions := [delEntry],
    nextCategoryId := 1, nextInventoryId := 1 }

theorem deleted_status_sticky_witness :
    classifyAt (applyOps delStore
      [CoreOp.terminate 50 ("e1"), CoreOp.refreshAccess 60 ("e1")]) 0 100 30
      = some RStatus.deleted :=
  deleted_status_sticky delStore 0 delEntry rfl rfl
    [CoreOp.terminate 50 ("e1"), CoreOp.refreshAccess 60 ("e1")] 100 30

/-! ## Claim C9 -/

/-- C9: cached report payloads are viewer-independent. For any two
authorized viewers, a retention-report or inventory request leaves the same
cached payload (the unfiltered base report: the cached value on a hit, the
freshly computed report on a miss), and each viewer's response is the role
filter applied to that unfiltered base — filtering happens after cache
storage, never before. -/
theorem cached_reports_viewer_independent (st : Store)
    (cached : Option RetentionReport) (icached : Option InventoryReport)
    (a1 r1 a2 r2 : String) (sf : Option String) (now th : Int)
    (h1 : can_view_retention_reports r1 = true)
    (h2 : can_view_retention_reports r2 = true)
    (g1 : can_view_data_inventory r1 = true)
    (g2 : can_view_data_inventory r2 = true) :
    (get_data_retention_report_route st cached a1 r1 sf now th
        = Except.ok ({ retentionReportBase st cached sf now th with retention_items :=
            (filter_retention_report_for_role
              (retentionReportBase st cached sf now th).retention_items a1 r1) },
          some (retentionReportBase st cached sf now th)))
  ∧ (get_data_retention_report_route st cached a2 r2 sf now th
        = Except.ok ({ retentionReportBase st cached sf now th with retention_items :=
            (filter_retention_report_for_role
              (retentionReportBase st cached sf now th).retention_items a2 r2) },
          some (retentionReportBase st cached sf now th)))
  ∧ (get_data_inventory_route st icached r1
        = Except.ok ({ inventoryReportBase st icached with inventory :=
            (filter_data_inventory_for_role (inventoryReportBase st icached).inventory r1) },
          some (inventoryReportBase st icached)))
  ∧ (get_data_inventory_route st icached r2
        = Except.ok ({ inventoryReportBase st icached with inventory :=
            (filter_data_inventory_for_role (inventoryReportBase st icached).inventory r2) },
          some (inventoryReportBase st icached))) := by
  refine ⟨?_, ?_, ?_, ?_⟩
  · unfold get_data_retention_report_route retentionReportBase
    rw [h1]
    cases cached <;> rfl
  · unfold get_data_retention_report_route retentionReportBase
    rw [h2]
    cases cached <;> rfl
  · unfold get_data_inventory_route inventoryReportBase
    rw [g1]
    cases icached <;> rfl
  · unfold get_data_inventory_route inventoryReportBase
    rw [g2]
    cases icached <;> rfl

theorem cached_reports_viewer_independent_witness :
    get_data_retention_report_route emptyStore none ("alice") ("HR_Admin") none 0 30
      = Except.ok ({ retentionReportBase emptyStore none none 0 30 with retention_items :=
          (filter_retention_report_for_role
            (retentionReportBase emptyStore none none 0 30).retention_items ("alice") ("HR_Admin")) },
        some (retentionReportBase emptyStore none none 0 30)) :=
  (cached_reports_viewer_independent emptyStore none none ("alice") ("HR_Admin")
    ("bob") ("HR_Manager") none 0 30 rfl rfl rfl rfl).1

/-! ## Claim C4 -/

/-- Attendance check-in envelope used by the C4 counterexample. -/
def c4ev : EventData :=
  { event_id := some "e9",
    payload := { emptyPayload with employee_id := some "e1", attendance_id := some "a1" } }

/-- State with one key of each cache class present and an empty store. -/
def c4s0 : SysState :=
  { store := emptyStore,
    cache := { entries := ["compliance:inventory:None:None:0:100",
                           "compliance:retention:None:30",
                           "compliance:employee_data:e1"],
               dedup := [], counters := [] } }

/-- C4 counterexample: `handle_attendance_event` performs an inventory
mutation and a retention mutation, yet every cache key — the
inventory-query key, the retention-report key and the subject's per-subject
summary key — survives the handler. -/
theorem attendance_no_invalidation :
    ((handle_attendance_event 0 c4ev c4s0).store.inventories.length = 1)
  ∧ ((handle_attendance_event 0 c4ev c4s0).store.retentions.length = 1)
  ∧ ((handle_attendance_event 0 c4ev c4s0).cache.entries = c4s0.cache.entries) := by
  decide

/-- C4 amended: cache invalidation is per-handler, not per-mutation. The
deletion handler does clear the whole retention-report class and the
subject's per-subject key, but the attendance handler (like the leave and
notification handlers) performs its inventory and retention mutations
without invalidating any cache entry. -/
theorem cache_invalidation_amended :
    (∀ (now : Int) (ev : EventData) (s : SysState) (uid : String),
      ev.payload.user_id = some uid →
      ∀ k ∈ (handle_user_deleted_event now ev s).cache.entries,
        (hasPrefix ("compliance:retention:") k = false
          ∧ k ≠ "compliance:employee_data:" ++ uid))
  ∧ (∀ (now : Int) (ev : EventData) (s : SysState),
      (handle_attendance_event now ev s).cache.entries = s.cache.entries) := by
  constructor
  · intro now ev s uid hu k hk
    unfold handle_user_deleted_event at hk
    rw [hu] at hk
    simp only [orElseStr] at hk
    simp only [increment_counter, invalidate_retention_cache,
      invalidate_employee_data_cache, List.mem_filter] at hk
    obtain ⟨⟨_, hk1⟩, hk2⟩ := hk
    constructor
    · simpa using hk2
    · intro he
      rw [he] at hk1
      simp at hk1
  · intro now ev s
    cases h : ev.payload.employee_id with
    | none => simp [handle_attendance_event, h]
    | some eid => simp [handle_attendance_event, h, increment_counter]

/-- User-deleted envelope used by the C4 witness. -/
def c4delEv : EventData :=
  { event_id := some "e3", payload := { emptyPayload with user_id := some "u1" } }

/-- State with only an inventory-class key cached. -/
def c4s1 : SysState :=
  { store := emptyStore,
    cache := { entries := ["compliance:inventory:None:None:0:100"],
               dedup := [], counters := [] } }

set_option maxRecDepth 4000 in
theorem cache_invalidation_amended_witness :
    hasPrefix ("compliance:retention:") ("compliance:inventory:None:None:0:100") = false
  ∧ "compliance:inventory:None:None:0:100" ≠ "compliance:employee_data:" ++ "u1" :=
  cache_invalidation_amended.1 0 c4delEv c4s1 ("u1") rfl
    ("compliance:inventory:None:None:0:100") (by decide)

/-! ## Claim C1 -/

/-- Ledger row for record "u1", for the C1 counterexample. -/
def c1entry : DataRetention :=
  { data_inventory_id := 1, record_id := "u1", data_subject_id := some "u1",
    data_created_at := 0, data_last_accessed := 0, retention_expires_at := 100,
    retention_status := "active", marked_for_deletion := false,
    marked_for_deletion_at := none, deletion_completed_at := none,
    deletion_reason := none, updated_at := 0 }

/-- User-updated envelope carrying an `event_id`. -/
def c1ev : EventData :=
  { event_id := some "e1", payload := { emptyPayload with user_id := some "u1" } }

/-- Initial state for the C1 counterexample. -/
def c1s0 : SysState :=
  { store := { categories := [], inventories := [], retentions := [c1entry],
               nextCategoryId := 1, nextInventoryId := 1 },
    cache := { entries := [], dedup := [], counters := [] } }

/-- C1 counterexample: the user-updated handler never consults the
Deduplication Gate, so re-processing the same envelope (same `event_id`) a
second time changes the ledger again — `data_last_accessed` is re-stamped
with the later delivery time — instead of being dropped. -/
theorem user_updated_not_deduplicated :
    (handle_user_updated_event 20 c1ev (handle_user_updated_event 10 c1ev c1s0)).store
      ≠ (handle_user_updated_event 10 c1ev c1s0).store := by
  decide

theorem dedup_invalidate_inventory_cache (c : CacheState) :
    (invalidate_inventory_cache c).dedup = c.dedup := rfl

theorem dedup_invalidate_retention_cache (c : CacheState) :
    (invalidate_retention_cache c).dedup = c.dedup := rfl

theorem dedup_invalidate_employee_data_cache (c : CacheState) (e : String) :
    (invalidate_employee_data_cache c e).dedup = c.dedup := rfl

theorem dedup_increment_counter (c : CacheState) (n : String) :
    (increment_counter c n).dedup = c.dedup := rfl

theorem is_duplicate_event_after_mark (c : CacheState) (k : String) :
    is_duplicate_event (mark_event_processed c k) k = true := by
  simp [is_duplicate_event, mark_event_processed, List.contains_cons]

theorem handle_user_created_dup (now : Int) (ev : EventData) (s : SysState)
    (eid : String) (h : ev.event_id = some eid)
    (hdup : is_duplicate_event s.cache ("user-created:" ++ eid) = true) :
    handle_user_created_event now ev s = s := by
  unfold handle_user_created_event
  rw [h]
  simp [orElseStr, hdup]

theorem handle_user_created_nouser (now : Int) (ev : EventData) (s : SysState)
    (eid : String) (h : ev.event_id = some eid)
    (hdup : is_duplicate_event s.cache ("user-created:" ++ eid) = false)
    (huid : orElseStr ev.payload.user_id ev.payload.id = none) :
    handle_user_created_event now ev s = s := by
  unfold handle_user_created_event
  rw [h, huid]
  simp [orElseStr, hdup]

theorem handle_user_created_run (now : Int) (ev : EventData) (s : SysState)
    (eid uid : String) (h : ev.event_id = some eid)
    (hdup : is_duplicate_event s.cache ("user-created:" ++ eid) = false)
    (huid : orElseStr ev.payload.user_id ev.payload.id = some uid) :
    handle_user_created_event now ev s =
      { store := create_retention_record
          (get_or_create_data_inventory s.store ("User Account Data") ("personal")
            ("user_management_service.users") ("User authentication and identification")
            ("Contract - Employment agreement")).1 now
          (get_or_create_data_inventory s.store ("User Account Data") ("personal")
            ("user_management_service.users") ("User authentication and identification")
            ("Contract - Employment agreement")).2.id uid (some uid),
        cache := increment_counter
          (invalidate_employee_data_cache
            (invalidate_inventory_cache
              (mark_event_processed s.cache ("user-created:" ++ eid)))
            uid)
          ("data_collected:" ++ dayKey now) } := by
  unfold handle_user_created_event
  rw [h, huid]
  simp [orElseStr, hdup]

theorem handle_employee_created_dup (now : Int) (ev : EventData) (s : SysState)
    (eid : String) (h : ev.event_id = some eid)
    (hdup : is_duplicate_event s.cache ("employee-created:" ++ eid) = true) :
    handle_employee_created_event now ev s = s := by
  unfold handle_employee_created_event
  rw [h]
  simp [orElseStr, hdup]

theorem handle_employee_created_noid (now : Int) (ev : EventData) (s : SysState)
    (eid : String) (h : ev.event_id = some eid)
    (hdup : is_duplicate_event s.cache ("employee-created:" ++ eid) = false)
    (huid : orElseStr ev.payload.employee_id ev.payload.id = none) :
    handle_employee_created_event now ev s = s := by
  unfold handle_employee_created_event
  rw [h, huid]
  simp [orElseStr, hdup]

/-- The conditional per-subject invalidation of the employee-created
handler (`if user_id: cache.invalidate_employee_data_cache(user_id)`). -/
def maybe_invalidate_employee (c : CacheState) : Option String → CacheState
  | some uid2 => invalidate_employee_data_cache c uid2
  | none => c

theorem handle_employee_created_run (now : Int) (ev : EventData) (s : SysState)
    (eid uid : String) (pu : Option String) (h : ev.event_id = some eid)
    (hdup : is_duplicate_event s.cache ("employee-created:" ++ eid) = false)
    (huid : orElseStr ev.payload.employee_id ev.payload.id = some uid)
    (hpu : ev.payload.user_id = pu) :
    handle_employee_created_event now ev s =
      { store := create_retention_record
          (get_or_create_data_inventory s.store ("Employee Personal Data") ("personal")
            ("employee_management_service.employees")
            ("Human resource management and employment record keeping")
            ("Contract - Employment agreement")).1 now
          (get_or_create_data_inventory s.store ("Employee Personal Data") ("personal")
            ("employee_management_service.employees")
            ("Human resource management and employment record keeping")
            ("Contract - Employment agreement")).2.id uid (orElseStr pu (some uid)),
        cache := increment_counter
          (maybe_invalidate_employee
            (invalidate_inventory_cache
              (mark_event_processed s.cache ("employee-created:" ++ eid))) pu)
          ("data_collected:" ++ dayKey now) } := by
  unfold handle_employee_created_event
  rw [h, huid, hpu]
  simp [orElseStr, hdup]
  clear hpu
  cases pu <;> rfl

/-- C1 amended: only the creation handlers pass through the Deduplication
Gate. For a user-created or employee-created envelope carrying an
`event_id`, re-processing the same envelope is a complete no-op — the
second application returns the state unchanged (marker included), dropped
at the gate before any inventory, ledger, cache or counter effect. Update
and other handlers (see the counterexample) never consult the gate. -/
theorem creation_handlers_dedup_idempotent (ev : EventData) (eid : String)
    (s : SysState) (now1 now2 : Int) (h : ev.event_id = some eid) :
    (handle_user_created_event now2 ev (handle_user_created_event now1 ev s)
        = handle_user_created_event now1 ev s)
  ∧ (handle_employee_created_event now2 ev (handle_employee_created_event now1 ev s)
        = handle_employee_created_event now1 ev s) := by
  constructor
  · by_cases hdup : is_duplicate_event s.cache ("user-created:" ++ eid) = true
    · rw [handle_user_created_dup now1 ev s eid h hdup]
      exact handle_user_created_dup now2 ev s eid h hdup
    · have hdup2 : is_duplicate_event s.cache ("user-created:" ++ eid) = false := by
        simpa using hdup
      cases huid : orElseStr ev.payload.user_id ev.payload.id with
      | none =>
          rw [handle_user_created_nouser now1 ev s eid h hdup2 huid]
          exact handle_user_created_nouser now2 ev s eid h hdup2 huid
      | some uid =>
          rw [handle_user_created_run now1 ev s eid uid h hdup2 huid]
          apply handle_user_created_dup now2 ev _ eid h
          show is_duplicate_event (increment_counter
            (invalidate_employee_data_cache
              (invalidate_inventory_cache
                (mark_event_processed s.cache ("user-created:" ++ eid)))
              uid)
            ("data_collected:" ++ dayKey now1)) ("user-created:" ++ eid) = true
          unfold is_duplicate_event
          rw [dedup_increment_counter, dedup_invalidate_employee_data_cache,
              dedup_invalidate_inventory_cache]
          simp [mark_event_processed, List.contains_cons]
  · by_cases hdup : is_duplicate_event s.cache ("employee-created:" ++ eid) = true
    · rw [handle_employee_created_dup now1 ev s eid h hdup]
      exact handle_employee_created_dup now2 ev s eid h hdup
    · have hdup2 : is_duplicate_event s.cache ("employee-created:" ++ eid) = false := by
        simpa using hdup
      cases huid : orElseStr ev.payload.employee_id ev.payload.id with
      | none =>
          rw [handle_employee_created_noid now1 ev s eid h hdup2 huid]
          exact handle_employee_created_noid now2 ev s eid h hdup2 huid
      | some uid =>
          cases hpu : ev.payload.user_id with
          | none =>
              rw [handle_employee_created_run now1 ev s eid uid none h hdup2 huid hpu]
              apply handle_employee_created_dup now2 ev _ eid h
              show is_duplicate_event (increment_counter
                (invalidate_inventory_cache
                  (mark_event_processed s.cache ("employee-created:" ++ eid)))
                ("data_collected:" ++ dayKey now1)) ("employee-created:" ++ eid) = true
              unfold is_duplicate_event
              rw [dedup_increment_counter, dedup_invalidate_inventory_cache]
              simp [mark_event_processed, List.contains_cons]
          | some uid2 =>
              rw [handle_employee_created_run now1 ev s eid uid (some uid2) h
                hdup2 huid hpu]
              apply handle_employee_created_dup now2 ev _ eid h
              show is_duplicate_event (increment_counter
                (invalidate_employee_data_cache
                  (invalidate_inventory_cache
                    (mark_event_processed s.cache ("employee-created:" ++ eid)))
                  uid2)
                ("data_collected:" ++ dayKey now1)) ("employee-created:" ++ eid) = true
              unfold is_duplicate_event
              rw [dedup_increment_counter, dedup_invalidate_employee_data_cache,
                  dedup_invalidate_inventory_cache]
              simp [mark_event_processed, List.contains_cons]

/-- User-created envelope with an `event_id`, for the C1 witness. -/
def c1wEv : EventData :=
  { event_id := some "e7", payload := { emptyPayload with user_id := some "u2" } }

/-- Empty system state. -/
def emptySys : SysState :=
  { store := emptyStore, cache := { entries := [], dedup := [], counters := [] } }

theorem creation_handlers_dedup_idempotent_witness :
    handle_user_created_event 20 c1wEv (handle_user_created_event 10 c1wEv emptySys)
      = handle_user_created_event 10 c1wEv emptySys :=
  (creation_handlers_dedup_idempotent c1wEv ("e7") emptySys 10 20 rfl).1
